import Mathlib

set_option linter.unusedVariables false

/-!
Shallow embedding of `src/client.c`: a single-shot TCP client that resolves
a textual IP address, connects, sends a length-prefixed command, performs one
receive, prints the reply and exits.

External operating-system facilities (inet_pton, inet_ntop, socket, connect,
send, write, recv, close, and the getopt engine) are modelled as an
environment of oracles; the control flow, the exact message texts, the
exit-code discipline and the byte-level framing are translated from the
source.  Every `exit` call site of the source is tagged with a reason so
that theorems can name the branch that terminated the process.
-/

/-- Numeric value of AF_INET on Linux. -/
def AF_INET : Nat := 2

/-- Numeric value of AF_INET6 on Linux. -/
def AF_INET6 : Nat := 10

/-- UINTMAX_MAX for the 64-bit uintmax_t used by strtoumax. -/
def UINTMAX_MAX : Nat := 2 ^ 64 - 1

/-- One item written to standard output: printf text, a raw write of bytes
out of the receive buffer, or a write call whose requested size exceeds the
buffer (the `(size_t)(-1)` case in read_from_socket when recv failed). -/
inductive OutEv where
  | text (s : String)
  | bytes (bs : List Nat)
  | badWrite (requested : Nat)
deriving DecidableEq, Repr

/-- The reason attached to each modelled process exit; `.success` is the
normal return from main. -/
inductive ExitReason where
  | success
  | usageHelp
  | usageError
  | portErrno
  | invalidAddress
  | socketCreateFailed
  | ntopFailed
  | internalFamily
  | connectFailed
  | closeFailed
deriving DecidableEq, Repr

/-- Observable process state: stdout events in order, stderr lines in order,
bytes sent on the socket, and the socket lifecycle flags. -/
structure St where
  stdout : List OutEv
  stderr : List String
  wire : List Nat
  socketCreated : Bool
  socketClosed : Bool
deriving DecidableEq, Repr

/-- The initial process state. -/
def St.empty : St := ⟨[], [], [], false, false⟩

/-- Result of one modelled C helper: either continue with a value, or the
process exited with a code and a tagged reason. -/
inductive StepRes (α : Type) where
  | ok (st : St) (a : α)
  | exited (st : St) (code : Nat) (reason : ExitReason)
deriving DecidableEq, Repr

/-- The exit reason of a step; `.success` while the process is still running. -/
def stepReason {α : Type} : StepRes α → ExitReason
  | .ok _ _ => .success
  | .exited _ _ r => r

/-- Environment oracles for the operating-system facilities the client calls.
`sendOk` and `writeOk` stand for the success of the `send` and `write` calls
in write_to_socket; the source never reads those return values, and the model
correspondingly never consults these two fields. -/
structure Env where
  pton4 : String → Option (List Nat)
  pton6 : String → Option (List Nat)
  ntop : Nat → List Nat → Option String
  sockFd : Nat
  socketOk : Bool
  connectOk : Bool
  sendOk : Bool
  writeOk : Bool
  recvRes : Int
  recvData : List Nat
  closeOk : Bool

/-- The observable outcome of a whole run of the client process. -/
structure RunResult where
  exitCode : Nat
  reason : ExitReason
  stdout : List OutEv
  stderr : List String
  wire : List Nat
  socketCreated : Bool
  socketClosed : Bool
deriving DecidableEq, Repr

/-- Package a final state and exit information into a run result. -/
def mkResult (st : St) (code : Nat) (reason : ExitReason) : RunResult :=
  ⟨code, reason, st.stdout, st.stderr, st.wire, st.socketCreated, st.socketClosed⟩

/-- The stderr lines produced by usage(): the optional message (printed with
a trailing newline) followed by the three lines of usage text. -/
def usageLines (prog : String) (message : Option String) : List String :=
  (match message with
   | some m => [m ++ "\n"]
   | none => []) ++
  ["Usage: " ++ prog ++ " [-h] <ip address> <port> <command>\n",
   "Options:\n",
   " -h Display this help message\n"]

/-- Outcome of the getopt option loop in parse_arguments. -/
inductive GetoptOut where
  | helpExit
  | unknown (c : Char)
  | done (rest : List String)
deriving DecidableEq, Repr

/-- POSIX getopt with optstring "h:" over the argv tail.  Because of the
colon, option h demands an argument: `-hX` or `-h X` reach the h case (which
exits via usage immediately), while a lone `-h` at the end of argv yields the
unknown-option result with optopt = h.  Any other option character is
unknown.  Scanning stops at the first non-option element or after `--`. -/
def scanOpts : List String → GetoptOut
  | [] => .done []
  | a :: rest =>
    match a.data with
    | '-' :: c :: cs =>
      if c = '-' ∧ cs = [] then .done rest
      else if c = 'h' then
        if cs ≠ [] then .helpExit
        else
          match rest with
          | _ :: _ => .helpExit
          | [] => .unknown 'h'
      else .unknown c
    | _ => .done (a :: rest)

/-- Result of parse_arguments: either an exit through usage(), or the three
positional arguments. -/
inductive ParseResult where
  | exit (code : Nat) (reason : ExitReason) (stderrLines : List String)
  | args (ip port command : String)
deriving DecidableEq, Repr

/-- parse_arguments: the getopt loop (case h exits 0 through usage, case ?
exits 1 with the unknown-option message), then the argument-count checks
against the total argc, then the three positionals at optind. -/
def parse_arguments (argv : List String) : ParseResult :=
  let prog := argv.headD ""
  match scanOpts argv.tail with
  | .helpExit => .exit 0 .usageHelp (usageLines prog none)
  | .unknown c =>
      .exit 1 .usageError
        (usageLines prog (some ("Unknown option \x27-" ++ c.toString ++ "\x27.")))
  | .done rest =>
    if argv.length < 4 then
      .exit 1 .usageError (usageLines prog (some "Error: Too few arguments."))
    else if argv.length > 4 then
      .exit 1 .usageError (usageLines prog (some "Error: Too many arguments."))
    else .args (rest.getD 0 "") (rest.getD 1 "") (rest.getD 2 "")

/-- The isspace characters skipped by strtoumax. -/
def isSpaceC (c : Char) : Bool :=
  c = ' ' ∨ c = '\t' ∨ c = '\n' ∨ c = '\x0b' ∨ c = '\x0c' ∨ c = '\r'

/-- Value of a run of decimal digit characters. -/
def digitsToNat (ds : List Char) : Nat :=
  ds.foldl (fun a c => a * 10 + (c.toNat - 48)) 0

/-- The optional sign in front of the digit run. -/
def splitSign (cs : List Char) : Bool × List Char :=
  match cs with
  | [] => (false, [])
  | c :: r =>
    if c = '-' then (true, r)
    else if c = '+' then (false, r)
    else (false, c :: r)

/-- strtoumax(nptr, &endptr, 10) on a platform with 64-bit uintmax_t: skip
isspace characters, take an optional sign, convert the maximal run of
digits.  Returns (value, ERANGE flag, characters endptr points at).  On
overflow the value is UINTMAX_MAX with ERANGE; a minus sign negates the
converted value in unsigned arithmetic; when no digits were converted,
endptr is reset to nptr, so the whole input is returned. -/
def strtoumax10 (cs : List Char) : Nat × Bool × List Char :=
  let t := cs.dropWhile isSpaceC
  let p := splitSign t
  let ds := p.2.takeWhile Char.isDigit
  let rest := p.2.dropWhile Char.isDigit
  if ds = [] then (0, false, cs)
  else
    let n := digitsToNat ds
    if n > UINTMAX_MAX then (UINTMAX_MAX, true, rest)
    else if p.1 then ((2 ^ 64 - n) % 2 ^ 64, false, rest)
    else (n, false, rest)

/-- Result of parse_in_port_t.  `errnoExit` is the perror path (the modelled
stderr line holds the message passed to perror, without the strerror
suffix); the two usage messages are the usage() path. -/
inductive PortResult where
  | ok (p : Nat)
  | errnoExit (msg : String)
  | usageErr (msg : String)
deriving DecidableEq, Repr

/-- parse_in_port_t: errno (which in this call can only be ERANGE) is
checked first, then leftover characters at endptr, then the UINT16_MAX
range check; the final narrowing cast to in_port_t is value-preserving
because of that check. -/
def parse_in_port_t (s : String) : PortResult :=
  if (strtoumax10 s.data).2.1 then .errnoExit "Error parsing in_port_t."
  else if (strtoumax10 s.data).2.2 ≠ [] then .usageErr "Invalid characters in input."
  else if (strtoumax10 s.data).1 > 65535 then .usageErr "in_port_t value out of range."
  else .ok (strtoumax10 s.data).1

/-- strlen on a byte list: length of the prefix before the first NUL. -/
def cstrlen (bs : List Nat) : Nat := (bs.takeWhile (fun b => b != 0)).length

/-- The bytes write_to_socket puts on the wire: one byte holding the value
of (uint8_t)strlen(command), then the strlen(command) bytes of the command. -/
def wireFrame (bs : List Nat) : List Nat :=
  (cstrlen bs % 256) :: bs.take (cstrlen bs)

/-- The bytes of a command string taken from argv (argv strings contain no
NUL byte). -/
def cmdBytes (s : String) : List Nat := s.data.map Char.toNat

/-- convert_address: try inet_pton with AF_INET, then with AF_INET6; if
both fail, print to stderr naming the offending string and
exit(EXIT_FAILURE).  The IPv4 branch also prints "IPv4 found" to stdout. -/
def convert_address (env : Env) (st : St) (address : String) :
    StepRes (Nat × List Nat) :=
  match env.pton4 address with
  | some b =>
      .ok { st with stdout := st.stdout ++ [.text "IPv4 found\n"] } (AF_INET, b)
  | none =>
    match env.pton6 address with
    | some b => .ok st (AF_INET6, b)
    | none =>
        .exited
          { st with stderr :=
              st.stderr ++ [address ++ " is not an IPv4 or IPv6 address\n"] }
          1 .invalidAddress

/-- socket_create: returns the new descriptor, or prints to stderr and
exits(EXIT_FAILURE) when socket() fails. -/
def socket_create (env : Env) (st : St) (domain : Nat) : StepRes Nat :=
  if env.socketOk then .ok { st with socketCreated := true } env.sockFd
  else
    .exited { st with stderr := st.stderr ++ ["Socket creation failed\n"] }
      1 .socketCreateFailed

/-- socket_connect: inet_ntop for logging (perror + exit on failure), the
"Connecting to" printf, the family dispatch that stores the network-order
port into the family-specific view (the IPv4 and IPv6 branches are
observably identical and merged here; any other family hits the
internal-error exit), the socket-details printf, then connect().  On
connect failure it calls perror and exit(EXIT_FAILURE) WITHOUT closing the
socket. -/
def socket_connect (env : Env) (st : St) (fam : Nat) (addrBytes : List Nat)
    (port : Nat) : StepRes Unit :=
  match env.ntop fam addrBytes with
  | none => .exited { st with stderr := st.stderr ++ ["inet_ntop"] } 1 .ntopFailed
  | some astr =>
    let st1 : St :=
      { st with stdout := st.stdout ++
          [.text ("Connecting to " ++ astr ++ ":" ++ toString port ++ "\n")] }
    if fam = AF_INET ∨ fam = AF_INET6 then
      let st2 : St :=
        { st1 with stdout := st1.stdout ++
            [.text ("Sock fd: " ++ toString env.sockFd ++ "\nAddr: " ++
              toString fam ++ "\nSize: 128")] }
      if env.connectOk then
        .ok { st2 with stdout := st2.stdout ++
            [.text ("Connected to " ++ astr ++ ":" ++ toString port ++ "\n")] } ()
      else .exited { st2 with stderr := st2.stderr ++ ["connect"] } 1 .connectFailed
    else
      .exited
        { st1 with stderr := st1.stderr ++
            ["Internal error: addr->ss_family must be AF_INET or AF_INET6, was: " ++
              toString fam ++ "\n"] }
        1 .internalFamily

/-- write_to_socket: send one size byte holding (uint8_t)strlen(command),
then write the strlen(command) command bytes.  The return values of send
and write (env.sendOk, env.writeOk) are not inspected, mirroring the
source, so this step never exits. -/
def write_to_socket (env : Env) (st : St) (command : List Nat) : StepRes Unit :=
  .ok { st with wire := st.wire ++ wireFrame command } ()

/-- read_from_socket: one recv into a 1024-byte buffer, the "Read bytes:"
printf, one write to standard output of (size_t)bytes_read bytes (when recv
returned -1 that size is the huge (size_t)(-1), modelled as a badWrite
event), then socket_close, which perror-exits non-zero if close fails.
The recv return value is never checked for errors. -/
def read_from_socket (env : Env) (st : St) : StepRes Unit :=
  let n := env.recvRes
  let st1 : St :=
    { st with stdout := st.stdout ++
        [.text ("Read bytes: " ++ toString n ++ "\n")] }
  let st2 : St :=
    if 0 ≤ n then
      { st1 with stdout := st1.stdout ++ [.bytes (env.recvData.take n.toNat)] }
    else { st1 with stdout := st1.stdout ++ [.badWrite (2 ^ 64 - 1)] }
  if env.closeOk then .ok { st2 with socketClosed := true } ()
  else
    .exited { st2 with stderr := st2.stderr ++ ["error closing socket"] }
      1 .closeFailed

/-- main: parse_arguments, handle_arguments (whose null checks cannot fire
because parse_arguments always assigns the three pointers, leaving only
parse_in_port_t), convert_address, socket_create on the resolved family,
socket_connect, write_to_socket, read_from_socket, return 0. -/
def runClient (env : Env) (argv : List String) : RunResult :=
  match parse_arguments argv with
  | .exit code reason lines => mkResult { St.empty with stderr := lines } code reason
  | .args ip portStr command =>
    match parse_in_port_t portStr with
    | .errnoExit m => mkResult { St.empty with stderr := [m] } 1 .portErrno
    | .usageErr m =>
        mkResult { St.empty with stderr := usageLines (argv.headD "") (some m) }
          1 .usageError
    | .ok port =>
      match convert_address env St.empty ip with
      | .exited st c r => mkResult st c r
      | .ok st famAddr =>
        match socket_create env st famAddr.1 with
        | .exited st2 c r => mkResult st2 c r
        | .ok st2 _ =>
          match socket_connect env st2 famAddr.1 famAddr.2 port with
          | .exited st3 c r => mkResult st3 c r
          | .ok st3 _ =>
            match write_to_socket env st3 (cmdBytes command) with
            | .exited st4 c r => mkResult st4 c r
            | .ok st4 _ =>
              match read_from_socket env st4 with
              | .exited st5 c r => mkResult st5 c r
              | .ok st5 _ => mkResult st5 0 .success

/-- A concrete environment: a loopback IPv4 endpoint, every system call
succeeds, and the peer closes without sending data (recv returns 0). -/
def env0 : Env :=
  { pton4 := fun s => if s = "127.0.0.1" then some [127, 0, 0, 1] else none,
    pton6 := fun s =>
      if s = "::1" then some [0, 0, 0, 0, 0, 0, 0, 0, 0, 0, 0, 0, 0, 0, 0, 1]
      else none,
    ntop := fun fam bs =>
      if fam = AF_INET ∧ bs = [127, 0, 0, 1] then some "127.0.0.1" else none,
    sockFd := 3,
    socketOk := true,
    connectOk := true,
    sendOk := true,
    writeOk := true,
    recvRes := 0,
    recvData := [],
    closeOk := true }

/-- The argv of scenario runs: ./client 127.0.0.1 9000 PING. -/
def argv0 : List String := ["./client", "127.0.0.1", "9000", "PING"]

/-- env0 with recv failing, and the (unchecked) send and write also failing. -/
def env1 : Env := { env0 with recvRes := -1, sendOk := false, writeOk := false }

/-- env0 with connect failing. -/
def env2 : Env := { env0 with connectOk := false }

/-- The decimal value denoted by a digit string. -/
def decimalVal (s : String) : Nat := digitsToNat s.data

/-! ## Helper lemmas -/

theorem isSpaceC_of_digit (c : Char) (h : c.isDigit = true) : isSpaceC c = false := by
  simp only [isSpaceC, decide_eq_false_iff_not]
  rintro (rfl | rfl | rfl | rfl | rfl | rfl) <;> exact absurd h (by decide)

theorem ne_dash_of_digit (c : Char) (h : c.isDigit = true) : c ≠ '-' := by
  rintro rfl; exact absurd h (by decide)

theorem ne_plus_of_digit (c : Char) (h : c.isDigit = true) : c ≠ '+' := by
  rintro rfl; exact absurd h (by decide)

/-- On a nonempty all-digit input, strtoumax converts the whole string:
no ERANGE and empty endptr tail when the value fits uintmax_t, ERANGE
(with value UINTMAX_MAX) otherwise. -/
theorem strtoumax10_all_digits (l : List Char) (hne : l ≠ [])
    (hall : ∀ c ∈ l, c.isDigit) :
    strtoumax10 l =
      if digitsToNat l > UINTMAX_MAX then (UINTMAX_MAX, true, [])
      else (digitsToNat l, false, []) := by
  obtain ⟨c, t, rfl⟩ : ∃ c t, l = c :: t := by
    cases l with
    | nil => exact absurd rfl hne
    | cons c t => exact ⟨c, t, rfl⟩
  have hc : c.isDigit = true := hall c (List.mem_cons_self c t)
  have hdrop : (c :: t).dropWhile isSpaceC = c :: t :=
    List.dropWhile_cons_of_neg (by simp [isSpaceC_of_digit c hc])
  have hsign : splitSign (c :: t) = (false, c :: t) := by
    simp only [splitSign]
    rw [if_neg (ne_dash_of_digit c hc), if_neg (ne_plus_of_digit c hc)]
  have htake : (c :: t).takeWhile Char.isDigit = c :: t :=
    List.takeWhile_eq_self_iff.mpr hall
  have hdrop2 : (c :: t).dropWhile Char.isDigit = [] :=
    List.dropWhile_eq_nil_iff.mpr hall
  simp only [strtoumax10, hdrop, hsign, htake, hdrop2]
  rw [if_neg (by simp : ¬(c :: t = []))]
  simp

/-- strlen of a NUL-free byte list is its length. -/
theorem cstrlen_of_ne_zero (bs : List Nat) (hnz : ∀ b ∈ bs, b ≠ 0) :
    cstrlen bs = bs.length := by
  unfold cstrlen
  rw [List.takeWhile_eq_self_iff.mpr]
  intro b hb
  simpa using hnz b hb

/-- The frame of a NUL-free command: its length modulo 256, then all its
bytes. -/
theorem wireFrame_of_ne_zero (bs : List Nat) (hnz : ∀ b ∈ bs, b ≠ 0) :
    wireFrame bs = (bs.length % 256) :: bs := by
  unfold wireFrame
  rw [cstrlen_of_ne_zero bs hnz, List.take_length]

/-! ## Claim theorems -/

/-- C1: for every NUL-free command of length L with L ≤ 255, write_to_socket
emits exactly the frame consisting of one length byte equal to L followed by
the L payload bytes unchanged, and that frame has 1 + L bytes; with L = 0
the frame is the single byte 0. -/
theorem frame_emits_length_prefix (env : Env) (st : St) (bs : List Nat)
    (hnz : ∀ b ∈ bs, b ≠ 0) (hle : bs.length ≤ 255) :
    write_to_socket env st bs =
      .ok { st with wire := st.wire ++ bs.length :: bs } () ∧
    (bs.length :: bs).length = 1 + bs.length := by
  constructor
  · unfold write_to_socket
    rw [wireFrame_of_ne_zero bs hnz, Nat.mod_eq_of_lt (by omega)]
  · simp [Nat.add_comm]

/-- C1 witness: the empty command transmits exactly the single byte 0x00. -/
theorem frame_emits_length_prefix_witness :
    write_to_socket env0 St.empty [] =
      .ok { St.empty with wire := [0] } () ∧
    (([] : List Nat).length :: ([] : List Nat)).length = 1 + ([] : List Nat).length := by
  have h := frame_emits_length_prefix env0 St.empty [] (by simp) (by simp)
  simpa using h

/-- C2: for every NUL-free command of length L > 255, write_to_socket does
not reject the command: the emitted length byte is L % 256 while all L
payload bytes are still written. -/
theorem frame_truncates_length_byte (env : Env) (st : St) (bs : List Nat)
    (hnz : ∀ b ∈ bs, b ≠ 0) (hgt : 255 < bs.length) :
    write_to_socket env st bs =
      .ok { st with wire := st.wire ++ (bs.length % 256) :: bs } () := by
  unfold write_to_socket
  rw [wireFrame_of_ne_zero bs hnz]

/-- C2 witness: a 256-byte command is sent with length byte 0 and the full
256-byte payload. -/
theorem frame_truncates_length_byte_witness :
    write_to_socket env0 St.empty (List.replicate 256 65) =
      .ok { St.empty with wire := 0 :: List.replicate 256 65 } () := by
  have h := frame_truncates_length_byte env0 St.empty (List.replicate 256 65)
    (by intro b hb; rw [List.eq_of_mem_replicate hb]; decide)
    (by rw [List.length_replicate]; omega)
  rw [h]
  simp only [List.length_replicate, Nat.reduceMod, St.empty, List.nil_append]

/-- C3: convert_address tries the IPv4 parse first (its success yields an
AF_INET endpoint regardless of the IPv6 parser), tries IPv6 only when IPv4
failed (yielding AF_INET6), and when both fail exits with code 1 and a
stderr message naming the offending string. -/
theorem convert_address_dispatch (env : Env) (st : St) (address : String) :
    (∀ b, env.pton4 address = some b →
      convert_address env st address =
        .ok { st with stdout := st.stdout ++ [.text "IPv4 found\n"] } (AF_INET, b)) ∧
    (env.pton4 address = none → ∀ b, env.pton6 address = some b →
      convert_address env st address = .ok st (AF_INET6, b)) ∧
    (env.pton4 address = none → env.pton6 address = none →
      convert_address env st address =
        .exited { st with stderr :=
            st.stderr ++ [address ++ " is not an IPv4 or IPv6 address\n"] }
          1 .invalidAddress) := by
  refine ⟨fun b h4 => ?_, fun h4 b h6 => ?_, fun h4 h6 => ?_⟩
  · unfold convert_address; rw [h4]
  · unfold convert_address; rw [h4, h6]
  · unfold convert_address; rw [h4, h6]

/-- C3 witness: a valid IPv4 literal resolves to an AF_INET endpoint. -/
theorem convert_address_dispatch_witness :
    convert_address env0 St.empty "127.0.0.1" =
      .ok { St.empty with stdout := [OutEv.text "IPv4 found\n"] }
        (AF_INET, [127, 0, 0, 1]) := by
  have h := (convert_address_dispatch env0 St.empty "127.0.0.1").1
    [127, 0, 0, 1] (by decide)
  simpa using h

/-- C4 counterexample: in scenario E (peer accepts then closes, recv
returns 0) the process does exit 0, yet standard output is not limited to
the reply bytes — the "Read bytes: 0" line and the "IPv4 found" progress
line are also printed there, so the client does print something additional. -/
theorem stdout_not_only_reply_cex :
    (runClient env0 argv0).exitCode = 0 ∧
    OutEv.text "Read bytes: 0\n" ∈ (runClient env0 argv0).stdout ∧
    OutEv.text "IPv4 found\n" ∈ (runClient env0 argv0).stdout := by decide

/-- C4 amended: error diagnostics go to the error stream (stderr is empty on
a fully successful run), but the output stream carries the progress and
byte-count messages in addition to the reply bytes; when the peer closes
without sending data the single receive returns 0, the client writes zero
reply bytes after the "Read bytes: 0" line, and the process exits 0. -/
theorem run_success_streams (env : Env) (ip portStr cmd : String)
    (b4 : List Nat) (astr : String) (pv : Nat)
    (hparse : parse_arguments ["./client", ip, portStr, cmd] = .args ip portStr cmd)
    (hport : parse_in_port_t portStr = .ok pv)
    (h4 : env.pton4 ip = some b4)
    (hntop : env.ntop AF_INET b4 = some astr)
    (hsock : env.socketOk = true)
    (hconn : env.connectOk = true)
    (hrecv : env.recvRes = 0)
    (hclose : env.closeOk = true) :
    runClient env ["./client", ip, portStr, cmd] =
      { exitCode := 0,
        reason := .success,
        stdout := [OutEv.text "IPv4 found\n",
                   OutEv.text ("Connecting to " ++ astr ++ ":" ++ toString pv ++ "\n"),
                   OutEv.text ("Sock fd: " ++ toString env.sockFd ++ "\nAddr: " ++
                     toString AF_INET ++ "\nSize: 128"),
                   OutEv.text ("Connected to " ++ astr ++ ":" ++ toString pv ++ "\n"),
                   OutEv.text "Read bytes: 0\n",
                   OutEv.bytes []],
        stderr := [],
        wire := wireFrame (cmdBytes cmd),
        socketCreated := true,
        socketClosed := true } := by
  simp only [runClient, hparse, hport, convert_address, h4, socket_create, hsock,
    socket_connect, hntop, if_pos (Or.inl rfl : AF_INET = AF_INET ∨ AF_INET = AF_INET6),
    hconn, write_to_socket, read_from_socket, hrecv, hclose, mkResult, St.empty,
    if_true, ite_true]
  rfl

/-- C4 amended witness: the concrete scenario-E run. -/
theorem run_success_streams_witness :
    runClient env0 ["./client", "127.0.0.1", "9000", "PING"] =
      { exitCode := 0,
        reason := .success,
        stdout := [OutEv.text "IPv4 found\n",
                   OutEv.text "Connecting to 127.0.0.1:9000\n",
                   OutEv.text "Sock fd: 3\nAddr: 2\nSize: 128",
                   OutEv.text "Connected to 127.0.0.1:9000\n",
                   OutEv.text "Read bytes: 0\n",
                   OutEv.bytes []],
        stderr := [],
        wire := [4, 80, 73, 78, 71],
        socketCreated := true,
        socketClosed := true } := by
  have h := run_success_streams env0 "127.0.0.1" "9000" "PING"
    [127, 0, 0, 1] "127.0.0.1" 9000 (by decide) (by decide) (by decide)
    (by decide) rfl rfl rfl rfl
  simpa using h

/-- C5 (code bug): even when send, write and recv all fail (recv returns
-1), the process exits 0 with the success reason — the source never checks
those return values; it prints "Read bytes: -1" and issues a stdout write
of (size_t)(-1) bytes — so a failed transfer is not reported and exit
status 0 does not imply full success. -/
theorem recv_error_exits_zero :
    env1.recvRes = -1 ∧ env1.sendOk = false ∧ env1.writeOk = false ∧
    (runClient env1 argv0).exitCode = 0 ∧
    (runClient env1 argv0).reason = ExitReason.success ∧
    OutEv.text "Read bytes: -1\n" ∈ (runClient env1 argv0).stdout ∧
    OutEv.badWrite (2 ^ 64 - 1) ∈ (runClient env1 argv0).stdout := by decide

/-- C6 (code bug): when connect fails, the process exits 1 from inside
socket_connect with the socket created but never closed — the partially
created socket is leaked, contradicting the close-on-every-exit-path
guarantee. -/
theorem connect_failure_leaks_socket :
    (runClient env2 argv0).socketCreated = true ∧
    (runClient env2 argv0).socketClosed = false ∧
    (runClient env2 argv0).exitCode = 1 ∧
    (runClient env2 argv0).reason = ExitReason.connectFailed := by decide

/-- C7 counterexample: the text "+80" contains a non-digit character, yet
parse_in_port_t accepts it and yields 80 instead of failing with the
"Invalid characters in input." usage error. -/
theorem port_plus_sign_accepted_cex :
    (¬ ∀ c ∈ "+80".data, c.isDigit) ∧
    parse_in_port_t "+80" = PortResult.ok 80 ∧
    parse_in_port_t "+80" ≠ PortResult.usageErr "Invalid characters in input." := by
  decide

/-- C7 amended: port validation accepts every nonempty all-digit text
denoting p ≤ 65535, yielding p; all-digit texts denoting values in
(65535, UINTMAX_MAX] fail with the usage error "in_port_t value out of
range."; all-digit texts denoting values above UINTMAX_MAX take the errno
path ("Error parsing in_port_t.") instead; the conversion itself consumes
leading whitespace and an optional sign, so texts such as "+80" and " 80"
are accepted, and a text fails with "Invalid characters in input." when
characters are left unconsumed by the conversion (and no range error
occurred). -/
theorem parse_port_behavior :
    (∀ s : String, s.data ≠ [] → (∀ c ∈ s.data, c.isDigit) →
      ((decimalVal s ≤ 65535 → parse_in_port_t s = .ok (decimalVal s)) ∧
       (65535 < decimalVal s → decimalVal s ≤ UINTMAX_MAX →
         parse_in_port_t s = .usageErr "in_port_t value out of range.") ∧
       (UINTMAX_MAX < decimalVal s →
         parse_in_port_t s = .errnoExit "Error parsing in_port_t."))) ∧
    parse_in_port_t "+80" = PortResult.ok 80 ∧
    parse_in_port_t " 80" = PortResult.ok 80 ∧
    (∀ s : String, (strtoumax10 s.data).2.1 = false →
      (strtoumax10 s.data).2.2 ≠ [] →
      parse_in_port_t s = .usageErr "Invalid characters in input.") := by
  have hUM : UINTMAX_MAX = 2 ^ 64 - 1 := rfl
  refine ⟨fun s hne hall => ?_, by decide, by decide, fun s her hrest => ?_⟩
  · have h := strtoumax10_all_digits s.data hne hall
    have hdv : decimalVal s = digitsToNat s.data := rfl
    refine ⟨fun hle => ?_, fun hgt hle => ?_, fun hgt => ?_⟩
    · have h1 : ¬(digitsToNat s.data > UINTMAX_MAX) := by
        rw [hdv] at hle; rw [hUM]; omega
      have h2 : ¬(digitsToNat s.data > 65535) := by rw [hdv] at hle; omega
      have hs : strtoumax10 s.data = (digitsToNat s.data, false, []) := by
        rw [h, if_neg h1]
      simp [parse_in_port_t, hs, h2, decimalVal]
    · have h1 : ¬(digitsToNat s.data > UINTMAX_MAX) := by
        rw [hdv] at hle; rw [hUM] at hle ⊢; omega
      have h2 : digitsToNat s.data > 65535 := by rw [hdv] at hgt; omega
      have hs : strtoumax10 s.data = (digitsToNat s.data, false, []) := by
        rw [h, if_neg h1]
      simp [parse_in_port_t, hs, h2]
    · have h3 : digitsToNat s.data > UINTMAX_MAX := by
        rw [hdv] at hgt; rw [hUM] at hgt ⊢; omega
      have hs : strtoumax10 s.data = (UINTMAX_MAX, true, []) := by
        rw [h, if_pos h3]
      simp [parse_in_port_t, hs]
  · simp [parse_in_port_t, her, hrest]

/-- C7 amended witness: 70000 is rejected with the range usage error. -/
theorem parse_port_behavior_witness :
    parse_in_port_t "70000" = PortResult.usageErr "in_port_t value out of range." := by
  have h := (parse_port_behavior.1 "70000" (by decide) (by decide)).2.1
    (by decide) (by decide)
  exact h

/-- C8 (code bug): invoked with the lone flag -h, the program does not
print usage and exit 0; because the optstring "h:" declares h as requiring
an argument, getopt reports the lone -h as an erroneous option, so the
program prints "Unknown option \x27-h\x27." plus the usage text to stderr
and exits 1. -/
theorem lone_dash_h_exits_failure :
    (runClient env0 ["./client", "-h"]).exitCode = 1 ∧
    (runClient env0 ["./client", "-h"]).reason = ExitReason.usageError ∧
    "Unknown option \x27-h\x27.\n" ∈ (runClient env0 ["./client", "-h"]).stderr := by
  decide

/-- C9: every endpoint a successful convert_address produces carries family
AF_INET or AF_INET6, so socket_connect applied to such an endpoint can
never take its internal-error family branch. -/
theorem internal_family_branch_unreachable (env : Env) (st st2 : St)
    (address : String) (fam : Nat) (addrBytes : List Nat) (stOut : St)
    (env2 : Env) (port : Nat)
    (h : convert_address env st address = .ok stOut (fam, addrBytes)) :
    stepReason (socket_connect env2 st2 fam addrBytes port) ≠
      ExitReason.internalFamily := by
  have hfam : fam = AF_INET ∨ fam = AF_INET6 := by
    unfold convert_address at h
    cases h4 : env.pton4 address with
    | some b => rw [h4] at h; cases h; exact Or.inl rfl
    | none =>
      rw [h4] at h
      cases h6 : env.pton6 address with
      | some b => rw [h6] at h; cases h; exact Or.inr rfl
      | none => rw [h6] at h; cases h
  unfold socket_connect
  cases hn : env2.ntop fam addrBytes with
  | none => simp [stepReason]
  | some astr =>
    simp only [if_pos hfam]
    by_cases hc : env2.connectOk
    · simp [hc, stepReason]
    · simp [hc, stepReason]

/-- C9 witness: the endpoint resolved from 127.0.0.1 never reaches the
internal-error branch. -/
theorem internal_family_branch_unreachable_witness :
    stepReason (socket_connect env0 St.empty AF_INET [127, 0, 0, 1] 9000) ≠
      ExitReason.internalFamily :=
  internal_family_branch_unreachable env0 St.empty St.empty "127.0.0.1"
    AF_INET [127, 0, 0, 1]
    { St.empty with stdout := [OutEv.text "IPv4 found\n"] } env0 9000 (by decide)

/-- C10: parse_in_port_t accepts the empty string (yielding port 0), a text
with a leading plus sign, and a text with leading whitespace, because only
the characters left unconsumed by strtoumax are checked. -/
theorem port_lenient_inputs :
    parse_in_port_t "" = PortResult.ok 0 ∧
    parse_in_port_t "+80" = PortResult.ok 80 ∧
    parse_in_port_t " 80" = PortResult.ok 80 := by decide
